import Mathlib

/-
Shallow embedding of src/app/adapter.py (vcf-ops-stockquote).

The adapter performs one outbound HTTP GET per operation; we model the
network interaction by its observable outcome: either the call raised an
exception (`HttpOutcome.fault`, carrying the text the code would embed via
repr(e)) or it returned a response with a status code and a body.  The body,
as far as `collect` inspects it, is either not parseable as a JSON object
(`none`, in which case `.json()` raises) or an association list of string
keys to numeric values.  Numeric JSON values are modelled as rationals: the
code never computes with them, it only stores them in metrics.
-/

namespace StockQuote

/-- Parsed JSON body as `collect` observes it: `none` when `.json()` raises a
parse error, otherwise the key/value pairs of the JSON object. -/
def JBody : Type := Option (List (String × ℚ))

/-- Outcome of the single `requests.get` call (and of any other statement in
the operation's `try` block): a raised exception with its repr text, or an
HTTP response with a status code and a body. -/
inductive HttpOutcome where
  | fault (e : String)
  | response (status_code : ℕ) (body : JBody)

/-- Result object of the `test` operation, mirroring the SDK's TestResult:
it carries an optional error message and is successful iff none is set. -/
structure TestResult where
  errorMessage : Option String
deriving DecidableEq

/-- Mirrors TestResult.with_error: records the error message. -/
def TestResult.with_error (r : TestResult) (msg : String) : TestResult :=
  { r with errorMessage := some msg }

/-- Embedding of `test` from src/app/adapter.py.  The code builds an empty
TestResult, issues the GET, and sets an error when the status code is not
200; any exception raised in the `try` block is caught and converted to an
error message prefixed with a fixed text; the `finally` block returns the
result (so even a non-Exception signal cannot propagate).  Reading the
ticker and api key only parameterizes the request URL, which is abstracted
into the outcome. -/
def test (outcome : HttpOutcome) : TestResult :=
  let result : TestResult := ⟨none⟩
  match outcome with
  | .fault e =>
      result.with_error ("Unexpected connection test error: " ++ e)
  | .response status_code _body =>
      if status_code ≠ 200 then
        result.with_error ("Error connecting to market")
      else
        result

/-- A metric attached to an object, mirroring aria.ops.data.Metric. -/
structure Metric where
  key : String
  value : ℚ
deriving DecidableEq

/-- An object inside a CollectResult, mirroring the SDK object created by
CollectResult.object(adapter_kind, object_kind, name). -/
structure AriaObject where
  adapter_kind : String
  object_kind : String
  name : String
  metrics : List Metric
deriving DecidableEq

/-- Result object of the `collect` operation, mirroring the SDK's
CollectResult: collected objects plus an optional error message. -/
structure CollectResult where
  objects : List AriaObject
  errorMessage : Option String
deriving DecidableEq

/-- Mirrors CollectResult.with_error: records the error message. -/
def CollectResult.with_error (r : CollectResult) (msg : String) : CollectResult :=
  { r with errorMessage := some msg }

/-- Text standing for Python's repr of the JSON parse exception raised by
`.json()`; its exact content is immaterial, only that it is some text. -/
def jsonDecodeRepr : String := "JSONDecodeError"

/-- Text standing for Python's repr of the KeyError raised by a dict lookup
of a missing key. -/
def keyErrorRepr (k : String) : String := "KeyError(" ++ k ++ ")"

/-- Embedding of `collect` from src/app/adapter.py.  The code builds an
empty CollectResult, issues the GET and immediately calls `.json()` on it
(never inspecting the status code), then creates the Quote object named by
the ticker, and only afterwards looks up the keys `bid` and `ask`; the two
Metric values are constructed before either is attached.  Any exception in
the `try` block is caught and converted to an error message, and the
`finally` block returns the accumulated result — so a KeyError on `bid` or
`ask` leaves the already-created, metric-less Quote object in the result. -/
def collect (adapter_kind ticker : String) (outcome : HttpOutcome) : CollectResult :=
  let result : CollectResult := ⟨[], none⟩
  match outcome with
  | .fault e =>
      -- requests.get itself raised; caught before any object was created
      result.with_error ("Unexpected collection error: " ++ e)
  | .response _status_code body =>
      match body with
      | none =>
          -- .json() raised a parse error; no object was created yet
          result.with_error ("Unexpected collection error: " ++ jsonDecodeRepr)
      | some q =>
          -- quote = result.object(ADAPTER_KIND, "Quote", ticker) runs first
          let quote : AriaObject := ⟨adapter_kind, "Quote", ticker, []⟩
          match List.lookup ("bid") q with
          | none =>
              -- q["bid"] raised KeyError after the object was created
              CollectResult.with_error ⟨[quote], none⟩
                ("Unexpected collection error: " ++ keyErrorRepr ("bid"))
          | some bid =>
              match List.lookup ("ask") q with
              | none =>
                  -- q["ask"] raised KeyError; the bid metric was built but
                  -- add_metric had not run yet
                  CollectResult.with_error ⟨[quote], none⟩
                    ("Unexpected collection error: " ++ keyErrorRepr ("ask"))
              | some ask =>
                  ⟨[{ quote with metrics := [⟨"bid", bid⟩, ⟨"ask", ask⟩] }], none⟩

/-- Result object of the `get_endpoints` operation. -/
structure EndpointResult where
  endpoints : List String
deriving DecidableEq

/-- Embedding of `get_endpoints` from src/app/adapter.py: returns an empty
EndpointResult (no endpoints are registered). -/
def get_endpoints : EndpointResult := ⟨[]⟩

/-- Kind of a user-editable parameter declared in the adapter definition. -/
inductive ParamKind where
  | string
  | int
deriving DecidableEq

/-- A parameter declared by define_string_parameter / define_int_parameter. -/
structure Parameter where
  key : String
  label : String
  kind : ParamKind
  required : Bool
  advanced : Bool
  default_value : Option ℤ
deriving DecidableEq

/-- A field of a credential type; define_password_parameter marks the field
as a secret (password) field. -/
structure CredentialField where
  key : String
  label : String
  is_password : Bool
deriving DecidableEq

/-- A credential type declared by define_credential_type, with the fields
subsequently declared on it. -/
structure CredentialType where
  key : String
  label : String
  fields : List CredentialField
deriving DecidableEq

/-- A metric declared on an object type by define_metric (key and label;
the third argument, the unit, is None in this adapter). -/
structure MetricDef where
  key : String
  label : String
deriving DecidableEq

/-- An object type declared by define_object_type, with its metrics. -/
structure ObjectType where
  key : String
  label : String
  metrics : List MetricDef
deriving DecidableEq

/-- The SDK's AdapterDefinition as populated by get_adapter_definition. -/
structure AdapterDefinition where
  adapter_key : String
  adapter_label : String
  credential_types : List CredentialType
  parameters : List Parameter
  object_types : List ObjectType
deriving DecidableEq

/-- The AdapterDefinition value built inside get_adapter_definition in
src/app/adapter.py, step by step: one credential type "credential" with one
password field "apiKey"; a required string parameter "ticker"; a required,
advanced int parameter "container_memory_limit" with default 1024; one
object type "quote"/"Quote" with metrics "bid" and "ask".  ADAPTER_KIND and
ADAPTER_NAME come from constants.py, which is not part of the sources, so
the value is parameterized by them; no claim depends on their content. -/
def adapterDefinitionValue (adapter_kind adapter_name : String) : AdapterDefinition :=
  { adapter_key := adapter_kind
    adapter_label := adapter_name
    credential_types :=
      [⟨"credential", "API Key", [⟨"apiKey", "API Secret Key", true⟩]⟩]
    parameters :=
      [ ⟨"ticker", "Ticker", ParamKind.string, true, false, none⟩
      , ⟨"container_memory_limit", "Adapter Memory Limit (MB)", ParamKind.int,
          true, true, some 1024⟩ ]
    object_types :=
      [⟨"quote", "Quote", [⟨"bid", "bid"⟩, ⟨"ask", "ask"⟩]⟩] }

/-- Embedding of get_adapter_definition from src/app/adapter.py: the whole
body is wrapped in try/except; on any internal exception the except clause
logs and falls off the end of the function, returning None (here: `none`).
The `internal_fault` argument injects such an exception. -/
def get_adapter_definition (adapter_kind adapter_name : String)
    (internal_fault : Option String) : Option AdapterDefinition :=
  match internal_fault with
  | some _ => none
  | none => some (adapterDefinitionValue adapter_kind adapter_name)

/-- Outcome of a step that python may complete or abort with an exception
(AdapterInstance.from_input, send_results). -/
inductive StepResult (α : Type) where
  | ok (a : α)
  | raise (e : String)

/-- The configuration read from the input payload: the ticker identifier and
the apiKey credential. -/
structure AdapterInstance where
  ticker : String
  apiKey : String

/-- Everything outside the adapter's own code that determines one run of
`main`: the outcome of AdapterInstance.from_input, of the HTTP GET, of the
send_results write to the output file, an injected internal fault for
get_adapter_definition, and the constants from constants.py. -/
structure Env where
  from_input : StepResult AdapterInstance
  http : HttpOutcome
  send : StepResult Unit
  internal_fault : Option String
  adapter_kind : String
  adapter_name : String

/-- How the body of main's `try` block terminates: normally, via sys.exit
(which raises SystemExit with the given code), or with some other uncaught
exception.  `wrote` records whether send_results wrote the output file. -/
inductive TryOutcome where
  | normal (wrote : Bool)
  | exited (code : ℕ) (wrote : Bool)
  | raised (wrote : Bool)

/-- The body of the `try` block of main in src/app/adapter.py: dispatch on
the method name.  test/endpoint_urls/collect read the AdapterInstance from
the input (which may raise), run the operation (which returns a result in
all cases), and call send_results (which may raise).  adapter_definition
runs get_adapter_definition and calls sys.exit(1) when the value returned is
not an AdapterDefinition; an unknown method also calls sys.exit(1). -/
def dispatch_try (method : String) (env : Env) : TryOutcome :=
  if method = "test" then
    match env.from_input with
    | .raise _ => .raised false
    | .ok _inst =>
        match env.send with
        | .ok _ => .normal true
        | .raise _ => .raised false
  else if method = "endpoint_urls" then
    match env.from_input with
    | .raise _ => .raised false
    | .ok _inst =>
        match env.send with
        | .ok _ => .normal true
        | .raise _ => .raised false
  else if method = "collect" then
    match env.from_input with
    | .raise _ => .raised false
    | .ok _inst =>
        match env.send with
        | .ok _ => .normal true
        | .raise _ => .raised false
  else if method = "adapter_definition" then
    match get_adapter_definition env.adapter_kind env.adapter_name env.internal_fault with
    | some _ =>
        match env.send with
        | .ok _ => .normal true
        | .raise _ => .raised false
    | none => .exited 1 false
  else
    .exited 1 false

/-- Observable outcome of one process run: its exit code and whether an
output file was written. -/
structure MainOutcome where
  exit_code : ℕ
  output_written : Bool
deriving DecidableEq

/-- Embedding of main from src/app/adapter.py.  When the argument count is
not 3, sys.exit(1) runs before the try block, so the process exits 1 with no
output written.  Otherwise the try body runs and, whatever way it ends —
normal completion, sys.exit(1) (a SystemExit in flight), or any other
exception — the `finally` clause runs sys.exit(0), raising SystemExit(0)
which replaces the in-flight exception: the process exits 0. -/
def main (argv : List String) (env : Env) : MainOutcome :=
  if argv.length ≠ 3 then
    ⟨1, false⟩
  else
    match dispatch_try (argv.headD ("")) env with
    | .normal wrote => ⟨0, wrote⟩
    | .exited _code wrote => ⟨0, wrote⟩
    | .raised wrote => ⟨0, wrote⟩

/-- A concrete environment in which every external step succeeds; used to
instantiate run-level theorems at concrete inputs. -/
def envOk : Env :=
  { from_input := .ok ⟨"ABC", "key"⟩
    http := .response 200 (some [("bid", (10.5 : ℚ)), ("ask", (10.7 : ℚ))])
    send := .ok ()
    internal_fault := none
    adapter_kind := "kind"
    adapter_name := "name" }

/-- A concrete environment in which get_adapter_definition hits an internal
exception and therefore returns None. -/
def envDefnFault : Env := { envOk with internal_fault := some ("boom") }

/-- Appending to a non-empty string yields a non-empty string. -/
theorem string_append_ne_empty (a b : String) (h : a ≠ "") : a ++ b ≠ "" := by
  intro heq
  apply h
  cases a with
  | mk da =>
    cases b with
    | mk db =>
      have hd : da ++ db = [] := congrArg String.data heq
      have hda : da = [] := (List.append_eq_nil.mp hd).1
      simp [hda]

/-- C1: for every HTTP response from the upstream, `test` returns a success
result (no error set) if and only if the response status code is exactly
200, independent of the response body content. -/
theorem c1_test_success_iff_status_200 (status_code : ℕ) (body : JBody) :
    (test (HttpOutcome.response status_code body)).errorMessage = none ↔
      status_code = 200 := by
  by_cases h : status_code = 200 <;>
    simp [test, TestResult.with_error, h]

/-- C2: `collect` on a 200 response with body containing bid = 10.5 and
ask = 10.7 for ticker "ABC" returns exactly one entity of object type Quote
named "ABC" carrying exactly the two metrics bid = 10.5 and ask = 10.7,
with no error set (for any adapter kind from constants.py). -/
theorem c2_collect_wellformed_response (adapter_kind : String) :
    collect adapter_kind ("ABC")
        (HttpOutcome.response 200 (some [("bid", (10.5 : ℚ)), ("ask", (10.7 : ℚ))])) =
      ⟨[⟨adapter_kind, "Quote", "ABC", [⟨"bid", (10.5 : ℚ)⟩, ⟨"ask", (10.7 : ℚ)⟩]⟩],
        none⟩ := by
  rfl

/-- C3 counterexample: a response with status 404 whose body nevertheless
parses and contains both bid and ask yields a collect result with NO error
set — `collect` never inspects the status code, refuting the claim that
every non-200 response yields a non-empty error string. -/
theorem c3_counterexample_non200_with_good_body_no_error :
    (404 : ℕ) ≠ 200 ∧
      (collect ("kind") ("ABC")
          (HttpOutcome.response 404
            (some [("bid", (10.5 : ℚ)), ("ask", (10.7 : ℚ))]))).errorMessage = none := by
  exact ⟨by decide, rfl⟩

/-- C3 amended: for every upstream response whose status code is not 200,
IF in addition its body fails to parse as a JSON object or lacks the key
bid or the key ask, then `collect` returns a result with a non-empty error
string (the status code itself is never consulted by `collect`). -/
theorem c3_amended_non200_bad_body_yields_error (adapter_kind ticker : String)
    (status_code : ℕ) (body : JBody) (_hstatus : status_code ≠ 200)
    (hbody : body = none ∨ ∃ q, body = some q ∧
      (List.lookup ("bid") q = none ∨ List.lookup ("ask") q = none)) :
    ∃ msg,
      (collect adapter_kind ticker
          (HttpOutcome.response status_code body)).errorMessage = some msg ∧
        msg ≠ "" := by
  rcases hbody with h | ⟨q, hq, hk⟩
  · subst h
    exact ⟨"Unexpected collection error: " ++ jsonDecodeRepr, rfl,
      string_append_ne_empty _ _ (by decide)⟩
  · subst hq
    rcases hb : List.lookup ("bid") q with _ | bid
    · refine ⟨"Unexpected collection error: " ++ keyErrorRepr ("bid"), ?_,
        string_append_ne_empty _ _ (by decide)⟩
      simp [collect, CollectResult.with_error, hb]
    · rcases hk with hk | hk
      · rw [hb] at hk
        exact absurd hk (by simp)
      · refine ⟨"Unexpected collection error: " ++ keyErrorRepr ("ask"), ?_,
          string_append_ne_empty _ _ (by decide)⟩
        simp [collect, CollectResult.with_error, hb, hk]

/-- C3 witness: the amended theorem applied at status 404 with an
unparseable body. -/
theorem c3_witness :
    (404 : ℕ) ≠ 200 ∧
      ∃ msg,
        (collect ("k2") ("XYZ")
            (HttpOutcome.response 404 none)).errorMessage = some msg ∧ msg ≠ "" :=
  ⟨by decide,
    c3_amended_non200_bad_body_yields_error ("k2") ("XYZ") 404 none (by decide)
      (Or.inl rfl)⟩

/-- C4 counterexample: a 200 response whose body lacks the key bid makes
`collect` return a non-empty error string, but the entity list is NOT
empty: the Quote object was already created (with no metrics) before the
key lookup raised, refuting the claim of an empty entity list. -/
theorem c4_counterexample_missing_bid_leaves_entity :
    (collect ("kind") ("ABC")
        (HttpOutcome.response 200 (some [("ask", (10.7 : ℚ))]))).errorMessage =
        some ("Unexpected collection error: KeyError(bid)") ∧
      (collect ("kind") ("ABC")
          (HttpOutcome.response 200 (some [("ask", (10.7 : ℚ))]))).objects =
        [⟨"kind", "Quote", "ABC", []⟩] ∧
      (collect ("kind") ("ABC")
          (HttpOutcome.response 200 (some [("ask", (10.7 : ℚ))]))).objects ≠ [] := by
  refine ⟨rfl, rfl, by decide⟩

/-- C4 amended: for every upstream response whose JSON body parses but
lacks the key bid or the key ask, `collect` returns a non-empty error
string and an entity list containing exactly one metric-less Quote entity
named after the ticker (created before the failing key lookup). -/
theorem c4_amended_missing_key_error_and_bare_entity (adapter_kind ticker : String)
    (status_code : ℕ) (q : List (String × ℚ))
    (hk : List.lookup ("bid") q = none ∨ List.lookup ("ask") q = none) :
    ∃ msg,
      collect adapter_kind ticker (HttpOutcome.response status_code (some q)) =
          ⟨[⟨adapter_kind, "Quote", ticker, []⟩], some msg⟩ ∧
        msg ≠ "" := by
  rcases hb : List.lookup ("bid") q with _ | bid
  · refine ⟨"Unexpected collection error: " ++ keyErrorRepr ("bid"), ?_,
      string_append_ne_empty _ _ (by decide)⟩
    simp [collect, CollectResult.with_error, hb]
  · rcases hk with hk | hk
    · rw [hb] at hk
      exact absurd hk (by simp)
    · refine ⟨"Unexpected collection error: " ++ keyErrorRepr ("ask"), ?_,
        string_append_ne_empty _ _ (by decide)⟩
      simp [collect, CollectResult.with_error, hb, hk]

/-- C4 witness: the amended theorem applied to a body lacking bid. -/
theorem c4_witness :
    ∃ msg,
      collect ("k3") ("DEF") (HttpOutcome.response 200 (some [("foo", (1 : ℚ))])) =
          ⟨[⟨"k3", "Quote", "DEF", []⟩], some msg⟩ ∧
        msg ≠ "" :=
  c4_amended_missing_key_error_and_bare_entity ("k3") ("DEF") 200
    [("foo", (1 : ℚ))] (Or.inl (by decide))

/-- C5: dispatching an unknown method with 3 arguments makes the process
exit 0, not nonzero: the sys.exit(1) in the unknown-method branch raises
SystemExit(1) inside the try block, but the finally clause runs
sys.exit(0), which replaces it — the claim describes the code's evident
intent (the explicit sys.exit(1) call), which the finally clause defeats. -/
theorem c5_unknown_method_exits_zero :
    main ["frobnicate", "in.json", "out.json"] envOk = ⟨0, false⟩ := by
  rfl

/-- C6: when get_adapter_definition hits an internal exception and returns
None, the adapter_definition branch calls sys.exit(1), but the finally
clause's sys.exit(0) replaces the in-flight SystemExit(1): the process
exits 0, not nonzero as the claim (and the code's evident intent) says. -/
theorem c6_defn_failure_exits_zero :
    main ["adapter_definition", "in.json", "out.json"] envDefnFault = ⟨0, false⟩ := by
  rfl

/-- C7: `test` is a total function of the observed outcome (by construction
every exception raised in its try block is caught, and the finally clause
returns the result object, so nothing propagates to the caller), and
whenever the request raised a fault or the response status is not 200, the
returned TestResult carries a non-empty error message. -/
theorem c7_test_total_and_faults_reported :
    (∀ e : String,
      ∃ msg, (test (HttpOutcome.fault e)).errorMessage = some msg ∧ msg ≠ "") ∧
    (∀ (status_code : ℕ) (body : JBody), status_code ≠ 200 →
      ∃ msg,
        (test (HttpOutcome.response status_code body)).errorMessage = some msg ∧
          msg ≠ "") := by
  constructor
  · intro e
    exact ⟨"Unexpected connection test error: " ++ e, rfl,
      string_append_ne_empty _ _ (by decide)⟩
  · intro status_code body h
    refine ⟨"Error connecting to market", ?_, by decide⟩
    simp [test, TestResult.with_error, h]

/-- C7 witness: the theorem applied to a concrete fault and to a concrete
non-200 response. -/
theorem c7_witness :
    (∃ msg, (test (HttpOutcome.fault ("boom"))).errorMessage = some msg ∧ msg ≠ "") ∧
      ((404 : ℕ) ≠ 200 ∧
        ∃ msg,
          (test (HttpOutcome.response 404 none)).errorMessage = some msg ∧ msg ≠ "") :=
  ⟨c7_test_total_and_faults_reported.1 ("boom"),
    by decide, c7_test_total_and_faults_reported.2 404 none (by decide)⟩

/-- C8: every invocation whose argument count is not exactly 3 exits with
code 1 before the try block is entered: no operation runs and no output
file is written. -/
theorem c8_wrong_arg_count_exits_one (argv : List String) (env : Env)
    (h : argv.length ≠ 3) :
    main argv env = ⟨1, false⟩ := by
  simp [main, h]

/-- C8 witness: the theorem applied to an empty argument list. -/
theorem c8_witness : main [] envOk = ⟨1, false⟩ :=
  c8_wrong_arg_count_exits_one [] envOk (by decide)

/-- C9: the adapter definition contains exactly one credential type, whose
single field is a password (secret) field; exactly one string parameter,
which is the required ticker; exactly one advanced integer parameter, with
default value 1024; and exactly one object type, whose metrics are exactly
bid and ask. -/
theorem c9_schema_shape (adapter_kind adapter_name : String) :
    (adapterDefinitionValue adapter_kind adapter_name).credential_types.length = 1 ∧
    (∀ c ∈ (adapterDefinitionValue adapter_kind adapter_name).credential_types,
      c.fields.length = 1 ∧ ∀ f ∈ c.fields, f.is_password = true) ∧
    ((adapterDefinitionValue adapter_kind adapter_name).parameters.filter
        (fun p => p.kind == ParamKind.string)).length = 1 ∧
    (∀ p ∈ (adapterDefinitionValue adapter_kind adapter_name).parameters,
      p.kind = ParamKind.string → p.key = "ticker" ∧ p.required = true) ∧
    ((adapterDefinitionValue adapter_kind adapter_name).parameters.filter
        (fun p => p.kind == ParamKind.int && p.advanced)).length = 1 ∧
    (∀ p ∈ (adapterDefinitionValue adapter_kind adapter_name).parameters,
      p.kind = ParamKind.int → p.advanced = true ∧ p.default_value = some 1024) ∧
    (adapterDefinitionValue adapter_kind adapter_name).object_types.length = 1 ∧
    (∀ t ∈ (adapterDefinitionValue adapter_kind adapter_name).object_types,
      t.metrics.map MetricDef.key = ["bid", "ask"]) := by
  refine ⟨rfl, ?_, rfl, ?_, rfl, ?_, rfl, ?_⟩ <;>
    simp [adapterDefinitionValue]

/-- C10: every invocation with exactly 3 arguments exits with code 0,
whatever the method name and whatever happens inside the try block
(operation faults, sys.exit(1) calls, read or write exceptions): the
finally clause's unconditional sys.exit(0) supersedes them all. -/
theorem c10_three_args_always_exit_zero (argv : List String) (env : Env)
    (h : argv.length = 3) :
    (main argv env).exit_code = 0 := by
  have h3 : ¬argv.length ≠ 3 := by simp [h]
  simp only [main, if_neg h3]
  cases dispatch_try (argv.headD ("")) env <;> rfl

/-- C10 witness: the theorem applied to a concrete unknown-method
invocation with a failing send step. -/
theorem c10_witness :
    (main ["collect", "a.json", "b.json"]
        { envOk with send := .raise ("disk full") }).exit_code = 0 :=
  c10_three_args_always_exit_zero ["collect", "a.json", "b.json"]
    { envOk with send := .raise ("disk full") } (by decide)

end StockQuote
